import Mathlib

/-!
Verification development for the dashboard task-reconciliation client
(`src/frontend/dashboard.js`).

The client keeps a mutable mapping `tasks` from task identifier to task
record, a grid of task cards (one DOM card per known task), and an
`activeTaskId` for the modal.  Push events arrive as JSON text frames over a
WebSocket and are applied by `handleWsMessage`; the snapshot is loaded by
`fetchTasks` which clears and repopulates the mapping.

The embedding models JavaScript values with the inductive `JVal`
(`undefined`, `null`, booleans, numbers, strings, arrays, objects), JS
truthiness, strict equality (`===`, with object/array comparisons modelling
distinct references, hence false), and string coercion for property keys and
template interpolation.  Exceptions thrown inside the handlers are modelled
as an explicit `threw` flag: the surrounding `try`/`catch` in `ws.onmessage`
(resp. inside `fetchTasks`) catches them, and all mutations performed before
the throw are retained, exactly as in the source.
-/

set_option autoImplicit false

namespace Devrun

/-- A JavaScript/JSON value as handled by the dashboard client. -/
inductive JVal where
  | jundefined
  | jnull
  | jbool (b : Bool)
  | jnum (n : Int)
  | jstr (s : String)
  | jarr (xs : List JVal)
  | jobj (fs : List (String × JVal))

mutual

/-- Decidable equality on `JVal` (the derive handler does not support nested
inductives in this toolchain, so it is spelled out). -/
def jDecEq : (a b : JVal) → Decidable (a = b)
  | .jundefined, .jundefined => isTrue rfl
  | .jundefined, .jnull => isFalse (fun h => JVal.noConfusion h)
  | .jundefined, .jbool _ => isFalse (fun h => JVal.noConfusion h)
  | .jundefined, .jnum _ => isFalse (fun h => JVal.noConfusion h)
  | .jundefined, .jstr _ => isFalse (fun h => JVal.noConfusion h)
  | .jundefined, .jarr _ => isFalse (fun h => JVal.noConfusion h)
  | .jundefined, .jobj _ => isFalse (fun h => JVal.noConfusion h)
  | .jnull, .jundefined => isFalse (fun h => JVal.noConfusion h)
  | .jnull, .jnull => isTrue rfl
  | .jnull, .jbool _ => isFalse (fun h => JVal.noConfusion h)
  | .jnull, .jnum _ => isFalse (fun h => JVal.noConfusion h)
  | .jnull, .jstr _ => isFalse (fun h => JVal.noConfusion h)
  | .jnull, .jarr _ => isFalse (fun h => JVal.noConfusion h)
  | .jnull, .jobj _ => isFalse (fun h => JVal.noConfusion h)
  | .jbool _, .jundefined => isFalse (fun h => JVal.noConfusion h)
  | .jbool _, .jnull => isFalse (fun h => JVal.noConfusion h)
  | .jbool a, .jbool b =>
      if h : a = b then isTrue (by rw [h]) else isFalse (fun hh => h (by injection hh))
  | .jbool _, .jnum _ => isFalse (fun h => JVal.noConfusion h)
  | .jbool _, .jstr _ => isFalse (fun h => JVal.noConfusion h)
  | .jbool _, .jarr _ => isFalse (fun h => JVal.noConfusion h)
  | .jbool _, .jobj _ => isFalse (fun h => JVal.noConfusion h)
  | .jnum _, .jundefined => isFalse (fun h => JVal.noConfusion h)
  | .jnum _, .jnull => isFalse (fun h => JVal.noConfusion h)
  | .jnum _, .jbool _ => isFalse (fun h => JVal.noConfusion h)
  | .jnum a, .jnum b =>
      if h : a = b then isTrue (by rw [h]) else isFalse (fun hh => h (by injection hh))
  | .jnum _, .jstr _ => isFalse (fun h => JVal.noConfusion h)
  | .jnum _, .jarr _ => isFalse (fun h => JVal.noConfusion h)
  | .jnum _, .jobj _ => isFalse (fun h => JVal.noConfusion h)
  | .jstr _, .jundefined => isFalse (fun h => JVal.noConfusion h)
  | .jstr _, .jnull => isFalse (fun h => JVal.noConfusion h)
  | .jstr _, .jbool _ => isFalse (fun h => JVal.noConfusion h)
  | .jstr _, .jnum _ => isFalse (fun h => JVal.noConfusion h)
  | .jstr a, .jstr b =>
      if h : a = b then isTrue (by rw [h]) else isFalse (fun hh => h (by injection hh))
  | .jstr _, .jarr _ => isFalse (fun h => JVal.noConfusion h)
  | .jstr _, .jobj _ => isFalse (fun h => JVal.noConfusion h)
  | .jarr _, .jundefined => isFalse (fun h => JVal.noConfusion h)
  | .jarr _, .jnull => isFalse (fun h => JVal.noConfusion h)
  | .jarr _, .jbool _ => isFalse (fun h => JVal.noConfusion h)
  | .jarr _, .jnum _ => isFalse (fun h => JVal.noConfusion h)
  | .jarr _, .jstr _ => isFalse (fun h => JVal.noConfusion h)
  | .jarr xs, .jarr ys =>
      match jDecEqList xs ys with
      | isTrue h => isTrue (by rw [h])
      | isFalse h => isFalse (fun hh => h (by injection hh))
  | .jarr _, .jobj _ => isFalse (fun h => JVal.noConfusion h)
  | .jobj _, .jundefined => isFalse (fun h => JVal.noConfusion h)
  | .jobj _, .jnull => isFalse (fun h => JVal.noConfusion h)
  | .jobj _, .jbool _ => isFalse (fun h => JVal.noConfusion h)
  | .jobj _, .jnum _ => isFalse (fun h => JVal.noConfusion h)
  | .jobj _, .jstr _ => isFalse (fun h => JVal.noConfusion h)
  | .jobj _, .jarr _ => isFalse (fun h => JVal.noConfusion h)
  | .jobj fs, .jobj gs =>
      match jDecEqObj fs gs with
      | isTrue h => isTrue (by rw [h])
      | isFalse h => isFalse (fun hh => h (by injection hh))

/-- Decidable equality on lists of `JVal`. -/
def jDecEqList : (xs ys : List JVal) → Decidable (xs = ys)
  | [], [] => isTrue rfl
  | [], _ :: _ => isFalse (fun h => List.noConfusion h)
  | _ :: _, [] => isFalse (fun h => List.noConfusion h)
  | x :: xs, y :: ys =>
      match jDecEq x y, jDecEqList xs ys with
      | isTrue h1, isTrue h2 => isTrue (by rw [h1, h2])
      | isFalse h1, _ => isFalse (fun h => h1 (by injection h))
      | _, isFalse h2 => isFalse (fun h => h2 (by injection h))

/-- Decidable equality on object field lists. -/
def jDecEqObj : (xs ys : List (String × JVal)) → Decidable (xs = ys)
  | [], [] => isTrue rfl
  | [], _ :: _ => isFalse (fun h => List.noConfusion h)
  | _ :: _, [] => isFalse (fun h => List.noConfusion h)
  | (k1, v1) :: xs, (k2, v2) :: ys =>
      match String.decEq k1 k2, jDecEq v1 v2, jDecEqObj xs ys with
      | isTrue hk, isTrue hv, isTrue ht => isTrue (by rw [hk, hv, ht])
      | isFalse hk, _, _ =>
          isFalse (fun h => by injection h with h1 h2; injection h1 with hka hva; exact hk hka)
      | _, isFalse hv, _ =>
          isFalse (fun h => by injection h with h1 h2; injection h1 with hka hva; exact hv hva)
      | _, _, isFalse ht =>
          isFalse (fun h => by injection h with h1 h2; exact ht h2)

end

instance : DecidableEq JVal := jDecEq

/-- JS truthiness: `undefined`, `null`, `false`, `0` and `""` are falsy. -/
def truthy : JVal → Bool
  | .jundefined => false
  | .jnull => false
  | .jbool b => b
  | .jnum n => n != 0
  | .jstr s => s != ""
  | .jarr _ => true
  | .jobj _ => true

/-- JS strict equality (`===`).  Objects and arrays compare by reference; in
every comparison the code performs, the two sides come from different
allocations (a stored id vs a freshly parsed frame), so they are modelled as
never equal. -/
def jEq : JVal → JVal → Bool
  | .jundefined, .jundefined => true
  | .jnull, .jnull => true
  | .jbool a, .jbool b => a == b
  | .jnum a, .jnum b => a == b
  | .jstr a, .jstr b => a == b
  | _, _ => false

mutual

/-- JS string coercion, as used for property keys (`tasks[task_id]`) and
template interpolation.  Only primitives are ever coerced on the modelled
code paths. -/
def jToStr : JVal → String
  | .jundefined => "undefined"
  | .jnull => "null"
  | .jbool b => cond b "true" "false"
  | .jnum n => toString n
  | .jstr s => s
  | .jobj _ => "[object Object]"
  | .jarr xs => String.intercalate "," (jToStrList xs)

/-- String coercion of array elements, for `jToStr` on arrays. -/
def jToStrList : List JVal → List String
  | [] => []
  | x :: xs => jToStr x :: jToStrList xs

end

/-- Property read `p[k]` on a JS value: object lookup (last binding wins, as
for duplicate keys in `JSON.parse`), `undefined` on non-objects.  Reads on
`null`/`undefined` throw and are handled by the callers that perform them. -/
def fieldOr (p : JVal) (k : String) : JVal :=
  match p with
  | .jobj fs => (fs.foldl (fun acc kv => if kv.1 == k then some kv.2 else acc) none).getD .jundefined
  | _ => .jundefined

/-- Is the value a string (for `.toUpperCase()` / `.includes()` receivers)? -/
def isStr : JVal → Bool
  | .jstr _ => true
  | _ => false

/-- Is the value an array?  Arrays, like strings, have an `includes` method,
so calling `.includes` on them does not throw. -/
def isArr : JVal → Bool
  | .jarr _ => true
  | _ => false

/-- JS `a || b`. -/
def jOr (a b : JVal) : JVal := if truthy a then a else b

/-- A task record as stored in the `tasks` mapping.  The source stores plain
JS objects; the seven fields below are the only ones it ever reads or
writes, absent fields being `undefined`. -/
structure TaskRec where
  id : JVal
  persona : JVal
  status : JVal
  created_at : JVal
  logs : JVal
  result : JVal
  payload : JVal
deriving DecidableEq

/-- View a parsed snapshot element as a task record (property reads on the
stored object). -/
def toRec (v : JVal) : TaskRec :=
  ⟨fieldOr v "id", fieldOr v "persona", fieldOr v "status", fieldOr v "created_at",
   fieldOr v "logs", fieldOr v "result", fieldOr v "payload"⟩

/-- The task mapping `tasks`, an insertion-ordered map from coerced key to
record. -/
def Store := List (String × TaskRec)

instance : DecidableEq Store := inferInstanceAs (DecidableEq (List (String × TaskRec)))

/-- `tasks[k]` as a read. -/
def lookupTask (st : Store) (k : String) : Option TaskRec :=
  (List.find? (fun kv => kv.1 == k) st).map (fun kv => kv.2)

/-- `tasks[k] = v`: replace in place if the key exists, else append (JS
object insertion order). -/
def setTask : Store → String → TaskRec → Store
  | [], k, v => [(k, v)]
  | kv :: rest, k, v => if kv.1 == k then (k, v) :: rest else kv :: setTask rest k v

/-- Client state: the task mapping, the grid cards (ids, newest first) and
the modal state `activeTaskId` (JS `null` when closed). -/
structure DashState where
  tasks : Store
  cards : List String
  activeTaskId : JVal
deriving DecidableEq

/-- The state at page load: empty mapping, empty grid, no modal. -/
def emptyDash : DashState := ⟨[], [], .jnull⟩

/-- `capitalize(str)` throws iff its argument is truthy but not a string
(`str.charAt` is then not a function). -/
def capitalizeThrows (v : JVal) : Bool := truthy v && !(isStr v)

/-- `createTaskCard(task)` throws while building the card template iff
`capitalize(task.persona)` throws or `task.status.toUpperCase()` does
(status not a string); `getTaskSummary`, `formatTime` and `getPersonaIcon`
are total.  On a throw the card is never added to the grid. -/
def createCardThrows (t : TaskRec) : Bool :=
  capitalizeThrows t.persona || !(isStr t.status)

/-- `getTaskSummary(task)`: persona-keyed selection from `task.payload`
with per-persona fallback text baked into the template (`p.product ||
'items'` and so on), and a generic line for unknown personas. -/
def getTaskSummary (t : TaskRec) : String :=
  let p := jOr t.payload (.jobj [])
  if jEq t.persona (.jstr "shopper") then
    "Finding " ++ jToStr (jOr (fieldOr p "product") (.jstr "items"))
  else if jEq t.persona (.jstr "rider") then
    "Ride to " ++ jToStr (jOr (fieldOr p "drop") (.jstr "destination"))
  else if jEq t.persona (.jstr "patient") then
    "Meds: " ++ jToStr (jOr (fieldOr p "medicine") (.jstr "Prescription"))
  else if jEq t.persona (.jstr "coordinator") then
    "Event: " ++ jToStr (jOr (fieldOr p "event_name") (.jstr "Party"))
  else if jEq t.persona (.jstr "foodie") then
    "Order: " ++ jToStr (jOr (fieldOr p "food_item") (.jstr "Food"))
  else
    "Execution in progress..."

/-- Result of one `handleWsMessage` call: the state after all mutations
performed up to a possible throw, the number of snapshot reloads triggered
(`fetchTasks()` is async, so within the handler it only starts a request),
and whether the handler threw (the exception is caught by `ws.onmessage`). -/
structure ApplyOut where
  state : DashState
  reloads : Nat
  threw : Bool
deriving DecidableEq

/-- The tail of `handleWsMessage` after the `start` branch: the
unknown-identifier guard (`!tasks[task_id] && type !== 'start'`, which
triggers one `fetchTasks()` and returns) and the `log`/`complete` branches.
`task_id` is the destructured field; property access coerces it with
`jToStr`. -/
def afterStart (st : DashState) (type task_id message status result : JVal) : ApplyOut :=
  let key := jToStr task_id
  if (lookupTask st.tasks key).isNone && !(jEq type (.jstr "start")) then
    ⟨st, 1, false⟩
  else if jEq type (.jstr "log") then
    -- tasks[task_id].logs.push(message); then appendLog(message) when the
    -- modal shows this task (appendLog calls message.includes, which throws
    -- when the message is neither a string nor an array — both have an
    -- includes method — and only after the push already happened)
    match lookupTask st.tasks key with
    | none => ⟨st, 0, true⟩
    | some r =>
        match r.logs with
        | .jarr xs =>
            let r1 : TaskRec := ⟨r.id, r.persona, r.status, r.created_at,
                                 .jarr (xs ++ [message]), r.result, r.payload⟩
            let st1 : DashState := ⟨setTask st.tasks key r1, st.cards, st.activeTaskId⟩
            if jEq st.activeTaskId task_id && !(isStr message || isArr message) then
              ⟨st1, 0, true⟩
            else
              ⟨st1, 0, false⟩
        | _ => ⟨st, 0, true⟩
  else if jEq type (.jstr "complete") then
    -- updateTaskCard(task_id, status, result): missing card returns early;
    -- badge.textContent = status.toUpperCase() throws on a non-string
    -- status before the store is touched; otherwise status and result are
    -- overwritten unconditionally (result defaulted to null when absent)
    let result1 := if result = JVal.jundefined then JVal.jnull else result
    if st.cards.contains key then
      if !(isStr status) then ⟨st, 0, true⟩
      else
        match lookupTask st.tasks key with
        | some r =>
            ⟨⟨setTask st.tasks key
                ⟨r.id, r.persona, status, r.created_at, r.logs, result1, r.payload⟩,
              st.cards, st.activeTaskId⟩, 0, false⟩
        | none => ⟨st, 0, false⟩
    else ⟨st, 0, false⟩
  else
    ⟨st, 0, false⟩

/-- `handleWsMessage(payload)` from `dashboard.js`, parametrised by the
current clock reading `now` (`new Date().toISOString()`).

Mirrors the source: destructuring (throws on `null`/`undefined` payloads);
the `start` branch overwriting `tasks[task_id]` with a fresh record
(`status` running, empty `logs`, `created_at` now, `payload` empty — the
comment in the source reads "Simplify") and creating a card
(`createTaskCard` can throw, in which case the store write is retained but
no card is added and execution stops); then the fall-through handled by
`afterStart`. -/
def handleWsMessage (now : String) (st : DashState) (p : JVal) : ApplyOut :=
  if p = JVal.jnull ∨ p = JVal.jundefined then
    ⟨st, 0, true⟩
  else
    let type := fieldOr p "type"
    let task_id := fieldOr p "task_id"
    let message := fieldOr p "message"
    let status := fieldOr p "status"
    let result := fieldOr p "result"
    let persona := fieldOr p "persona"
    let key := jToStr task_id
    if jEq type (.jstr "start") then
      let newTask : TaskRec :=
        ⟨task_id, persona, .jstr "running", .jstr now, .jarr [], .jnull, .jobj []⟩
      let tasks1 := setTask st.tasks key newTask
      if createCardThrows newTask then
        ⟨⟨tasks1, st.cards, st.activeTaskId⟩, 0, true⟩
      else
        afterStart ⟨tasks1, key :: st.cards, st.activeTaskId⟩ type task_id message status result
    else
      afterStart st type task_id message status result

/-- Outcome of the `GET /tasks` round-trip as seen by `fetchTasks`:
the `fetch` call rejecting (network error), `response.json()` rejecting
(body not valid JSON), or a parsed JSON value.  The source never checks
`response.ok`, so a non-success HTTP status with a JSON body is an `ok`
outcome too. -/
inductive FetchOutcome where
  | netErr
  | parseErr
  | ok (data : JVal)
deriving DecidableEq

/-- Result of a completed `fetchTasks()` call: the state after it and
whether its `catch` block logged a failure to the console. -/
structure FetchOut where
  state : DashState
  errLogged : Bool
deriving DecidableEq

/-- `data.length === 0` without throwing: an empty array, an empty string,
or an object whose `length` property is strictly equal to the number 0 — a
body such as an object with a single field `length` holding 0 passes this
check too.  Reads on `null`/`undefined` throw at `.length` and are handled
by the caller's catch-all branch; on other primitives the `length` property
is `undefined`, never strictly equal to 0. -/
def lenZero : JVal → Bool
  | .jarr xs => xs.isEmpty
  | .jstr s => s == ""
  | .jobj fs => jEq (fieldOr (.jobj fs) "length") (.jnum 0)
  | _ => false

/-- The `data.forEach(task => { tasks[task.id] = task; createTaskCard(task); })`
loop.  A `null`/`undefined` element throws at `task.id`; a record whose card
template cannot be built throws after the store write.  Returns the partial
store and cards (cards are prepended, newest first) and whether it threw. -/
def snapLoop : Store → List String → List JVal → Store × List String × Bool
  | tasks, cards, [] => (tasks, cards, false)
  | tasks, cards, t :: ts =>
      if t = JVal.jnull ∨ t = JVal.jundefined then (tasks, cards, true)
      else
        let r := toRec t
        let key := jToStr (fieldOr t "id")
        let tasks1 := setTask tasks key r
        if createCardThrows r then (tasks1, cards, true)
        else snapLoop tasks1 (key :: cards) ts

/-- Completion of `fetchTasks()`.  On a network or JSON-parse failure the
`catch` runs before any mutation, so the state is untouched.  On a parsed
body the grid and the mapping are cleared first (`tasksGrid.innerHTML = '';
tasks = {};`), then: length-zero data (including an object whose `length`
property equals 0) renders the empty state with no error; an array is
folded by `snapLoop`; anything else throws at `data.length`/`data.forEach`
and is caught with the store left cleared. -/
def fetchTasksComplete (st : DashState) : FetchOutcome → FetchOut
  | .netErr => ⟨st, true⟩
  | .parseErr => ⟨st, true⟩
  | .ok data =>
      if lenZero data then ⟨⟨[], [], st.activeTaskId⟩, false⟩
      else
        match data with
        | .jarr ts =>
            let out := snapLoop [] [] ts
            ⟨⟨out.1, out.2.1, st.activeTaskId⟩, out.2.2⟩
        | _ => ⟨⟨[], [], st.activeTaskId⟩, true⟩

/-- An inbound WebSocket frame: either text that fails `JSON.parse`, or the
parsed JSON value. -/
inductive Frame where
  | nonJson
  | json (v : JVal)

/-- Result of `ws.onmessage`: the state, the reloads triggered, whether the
`catch` block ran (for a parse failure or an exception escaping
`handleWsMessage`), and whether the connection is still open afterwards
(the handler never closes it). -/
structure MsgOut where
  state : DashState
  reloads : Nat
  errCaught : Bool
  connOpen : Bool
deriving DecidableEq

/-- `ws.onmessage` from `dashboard.js`: `JSON.parse` inside a `try`, with
the `catch` logging and dropping the frame; an exception thrown while
applying a parsed event is caught by the same `catch`, keeping every
mutation made before the throw. -/
def onWsMessage (now : String) (st : DashState) : Frame → MsgOut
  | .nonJson => ⟨st, 0, true, true⟩
  | .json v =>
      let out := handleWsMessage now st v
      ⟨out.state, out.reloads, out.threw, true⟩

/-- Apply a list of parsed events in arrival order (each one is its own
`onmessage` callback, so an exception in one does not stop the next),
collecting the total number of reloads triggered. -/
def runEvents (now : String) : DashState → List JVal → DashState × Nat
  | st, [] => (st, 0)
  | st, e :: es =>
      let out := handleWsMessage now st e
      let rest := runEvents now out.state es
      (rest.1, out.reloads + rest.2)

/-- A `start` push frame, as produced by the server. -/
def mkStart (id pstr : String) : JVal :=
  .jobj [("type", .jstr "start"), ("task_id", .jstr id), ("persona", .jstr pstr)]

/-- A `log` push frame. -/
def mkLog (id : String) (msg : JVal) : JVal :=
  .jobj [("type", .jstr "log"), ("task_id", .jstr id), ("message", msg)]

/-- A `complete` push frame. -/
def mkComplete (id sstr : String) (res : JVal) : JVal :=
  .jobj [("type", .jstr "complete"), ("task_id", .jstr id),
         ("status", .jstr sstr), ("result", res)]

/-- The record created by the `start` branch for a string id and persona. -/
def startRec (id pstr now : String) : TaskRec :=
  ⟨.jstr id, .jstr pstr, .jstr "running", .jstr now, .jarr [], .jnull, .jobj []⟩

/-- Whole-page state: the dashboard state plus the number of snapshot
fetches currently in flight. -/
structure SysState where
  dash : DashState
  pending : Nat
deriving DecidableEq

/-- Page load (`DOMContentLoaded`): `fetchTasks(); connectWebSocket();` —
the store starts empty and one snapshot fetch is in flight.  There is no
event buffer. -/
def initSys : SysState := ⟨emptyDash, 1⟩

/-- An observable step of the single-threaded event loop: a WebSocket frame
arriving, or an in-flight snapshot fetch completing. -/
inductive Step where
  | ws (f : Frame) (now : String)
  | fetchReturn (o : FetchOutcome)

/-- Event-loop transition: frames are applied to the store immediately
(there is no buffering before the first snapshot lands); a fetch completion
installs its outcome over whatever state exists at that moment. -/
def stepSys (s : SysState) : Step → SysState
  | .ws f now =>
      let out := onWsMessage now s.dash f
      ⟨out.state, s.pending + out.reloads⟩
  | .fetchReturn o =>
      if s.pending = 0 then s
      else ⟨(fetchTasksComplete s.dash o).state, s.pending - 1⟩

/-- Run a trace of event-loop steps from a state. -/
def runTrace : SysState → List Step → SysState
  | s, [] => s
  | s, step :: rest => runTrace (stepSys s step) rest

/-! ### Helper lemmas about the store and the handlers -/

theorem jEq_jstr_iff (a : JVal) (s : String) : jEq a (.jstr s) = true ↔ a = .jstr s := by
  cases a <;> simp [jEq]

theorem jEq_jstr_of_ne {a : JVal} {s : String} (h : a ≠ .jstr s) :
    jEq a (.jstr s) = false := by
  rcases hb : jEq a (.jstr s) with _ | _
  · rfl
  · exact absurd ((jEq_jstr_iff a s).1 hb) h

theorem lookupTask_cons (a : String) (b : TaskRec) (rest : Store) (k : String) :
    lookupTask ((a, b) :: rest) k = if a == k then some b else lookupTask rest k := by
  by_cases h : a == k <;> simp [lookupTask, List.find?, h]

theorem lookupTask_setTask_self (ts : Store) (k : String) (v : TaskRec) :
    lookupTask (setTask ts k v) k = some v := by
  induction ts with
  | nil => simp [setTask, lookupTask, List.find?]
  | cons kv rest ih =>
      by_cases h : kv.1 == k
      · simp [setTask, h, lookupTask_cons]
      · obtain ⟨a, b⟩ := kv
        simp only at h
        simp [setTask, h, lookupTask_cons, ih]

theorem setTask_idem (ts : Store) (k : String) (v : TaskRec) :
    setTask (setTask ts k v) k v = setTask ts k v := by
  induction ts with
  | nil => simp [setTask]
  | cons kv rest ih =>
      by_cases h : kv.1 == k
      · simp [setTask, h]
      · obtain ⟨a, b⟩ := kv
        simp only at h
        simp [setTask, h, ih]

theorem runEvents_cons_fst (now : String) (st : DashState) (e : JVal) (es : List JVal) :
    (runEvents now st (e :: es)).1
      = (runEvents now (handleWsMessage now st e).state es).1 := rfl

/-- Unfolding of `handleWsMessage` on a well-formed `start` frame: the
mapping gets a fresh record under the id and a card is prepended. -/
theorem hwm_start (now id pstr : String) (st : DashState) :
    handleWsMessage now st (mkStart id pstr) =
      ⟨⟨setTask st.tasks id (startRec id pstr now), id :: st.cards, st.activeTaskId⟩,
       0, false⟩ := by
  simp [handleWsMessage, mkStart, fieldOr, List.foldl, jToStr, jEq, createCardThrows,
        capitalizeThrows, isStr, truthy, afterStart, startRec, lookupTask_setTask_self]

/-- Unfolding of `handleWsMessage` on a `log` frame for a known record whose
`logs` field is an array: the message is appended; the state does not
otherwise change and no reload is triggered (an `appendLog` throw, possible
when the modal shows this task and the message is not a string, happens
after the push). -/
theorem hwm_log (now id : String) (msg : JVal) (st : DashState) (r : TaskRec)
    (xs : List JVal) (hknown : lookupTask st.tasks id = some r)
    (hlogs : r.logs = .jarr xs) :
    (handleWsMessage now st (mkLog id msg)).state
      = ⟨setTask st.tasks id
           ⟨r.id, r.persona, r.status, r.created_at, .jarr (xs ++ [msg]),
            r.result, r.payload⟩,
         st.cards, st.activeTaskId⟩
    ∧ (handleWsMessage now st (mkLog id msg)).reloads = 0 := by
  have hne : ¬(mkLog id msg = JVal.jnull ∨ mkLog id msg = JVal.jundefined) := by
    simp [mkLog]
  simp only [handleWsMessage, if_neg hne]
  have ht : fieldOr (mkLog id msg) "type" = .jstr "log" := rfl
  have hi : fieldOr (mkLog id msg) "task_id" = .jstr id := rfl
  have hm : fieldOr (mkLog id msg) "message" = msg := rfl
  rw [ht, hi, hm]
  refine ⟨?_, ?_⟩ <;>
  · simp only [jEq, jToStr, afterStart, String.reduceBEq, Bool.false_eq_true,
               Bool.not_false, Bool.and_true, if_false, eq_self_iff_true, if_true,
               hknown, Option.isNone_some, hlogs]
    split <;> rfl

/-- Unfolding of `handleWsMessage` on a `complete` frame for a known record
whose card is in the grid, with a string status and a present result: the
record's status and result are overwritten unconditionally — there is no
terminal-state guard in `updateTaskCard`. -/
theorem hwm_complete (now id sstr : String) (res : JVal) (st : DashState) (r : TaskRec)
    (hknown : lookupTask st.tasks id = some r)
    (hcard : st.cards.contains id = true)
    (hres : res ≠ JVal.jundefined) :
    handleWsMessage now st (mkComplete id sstr res) =
      ⟨⟨setTask st.tasks id
          ⟨r.id, r.persona, .jstr sstr, r.created_at, r.logs, res, r.payload⟩,
        st.cards, st.activeTaskId⟩, 0, false⟩ := by
  have hne : ¬(mkComplete id sstr res = JVal.jnull ∨ mkComplete id sstr res = JVal.jundefined) := by
    simp [mkComplete]
  simp only [handleWsMessage, if_neg hne]
  have ht : fieldOr (mkComplete id sstr res) "type" = .jstr "complete" := rfl
  have hi : fieldOr (mkComplete id sstr res) "task_id" = .jstr id := rfl
  have hs : fieldOr (mkComplete id sstr res) "status" = .jstr sstr := rfl
  have hr : fieldOr (mkComplete id sstr res) "result" = res := rfl
  rw [ht, hi, hs, hr]
  simp only [jEq, jToStr, afterStart, String.reduceBEq, Bool.false_eq_true,
             Bool.not_false, Bool.and_true, if_false, eq_self_iff_true, if_true,
             hknown, Option.isNone_some, hcard, if_neg hres, isStr, Bool.not_true]

/-- The result of a completed snapshot fetch with a parsed body does not
depend on the prior task mapping: `fetchTasks` clears the mapping before
installing the fetched data, so nothing applied before the snapshot landed
is replayed into it. -/
theorem fetch_ok_tasks_indep (st1 st2 : DashState) (data : JVal) :
    (fetchTasksComplete st1 (.ok data)).state.tasks
      = (fetchTasksComplete st2 (.ok data)).state.tasks := by
  by_cases h : lenZero data <;> cases data <;> simp [fetchTasksComplete, h]

/-- Folding a run of `log` events followed by one `complete` event over a
state in which the id is known, its record has an array of logs, and its
card is present: every message is appended in order, then status and result
are overwritten. -/
theorem run_logs_then_complete (now id sstr : String) (res : JVal)
    (hres : res ≠ JVal.jundefined) :
    ∀ (msgs : List JVal) (st : DashState) (r : TaskRec) (xs : List JVal),
      lookupTask st.tasks id = some r → r.logs = .jarr xs →
      st.cards.contains id = true →
      lookupTask (runEvents now st
          (msgs.map (mkLog id) ++ [mkComplete id sstr res])).1.tasks id
        = some ⟨r.id, r.persona, .jstr sstr, r.created_at, .jarr (xs ++ msgs),
                res, r.payload⟩ := by
  intro msgs
  induction msgs with
  | nil =>
      intro st r xs hknown hlogs hcard
      simp only [List.map_nil, List.nil_append]
      rw [runEvents_cons_fst, hwm_complete now id sstr res st r hknown hcard hres]
      simp only [runEvents, hlogs, List.append_nil]
      exact lookupTask_setTask_self ..
  | cons m ms ih =>
      intro st r xs hknown hlogs hcard
      simp only [List.map_cons, List.cons_append]
      rw [runEvents_cons_fst,
          (hwm_log now id m st r xs hknown hlogs).1]
      have := ih ⟨setTask st.tasks id
            ⟨r.id, r.persona, r.status, r.created_at, .jarr (xs ++ [m]),
             r.result, r.payload⟩, st.cards, st.activeTaskId⟩
          ⟨r.id, r.persona, r.status, r.created_at, .jarr (xs ++ [m]),
           r.result, r.payload⟩ (xs ++ [m])
          (lookupTask_setTask_self ..) rfl hcard
      simpa [List.append_assoc] using this

/-- C1: for every sequence Start, then n Log events, then one Complete
applied via `handleWsMessage` to a store that does not contain the id, the
resulting record holds exactly the n log messages in arrival order and its
status and result equal the fields carried by the Complete event. -/
theorem start_logs_complete_record (now id pstr sstr : String) (msgs : List JVal)
    (res : JVal) (st : DashState)
    (hfresh : lookupTask st.tasks id = none) (hres : res ≠ JVal.jundefined) :
    lookupTask (runEvents now st
        (mkStart id pstr :: (msgs.map (mkLog id) ++ [mkComplete id sstr res]))).1.tasks id
      = some ⟨.jstr id, .jstr pstr, .jstr sstr, .jstr now, .jarr msgs, res, .jobj []⟩ := by
  rw [runEvents_cons_fst, hwm_start]
  have := run_logs_then_complete now id sstr res hres msgs
      ⟨setTask st.tasks id (startRec id pstr now), id :: st.cards, st.activeTaskId⟩
      (startRec id pstr now) []
      (lookupTask_setTask_self ..) rfl (by simp [List.contains_cons])
  simpa [startRec] using this

/-- C1 witness: the scenario from the spec, Start, one Log "searching",
Complete success with result `\x7bmessage: done\x7d`, applied to the empty
store. -/
theorem start_logs_complete_record_witness :
    lookupTask (runEvents "T" emptyDash
        (mkStart "t1" "shopper" ::
          ([JVal.jstr "searching"].map (mkLog "t1")
            ++ [mkComplete "t1" "success" (.jobj [("message", .jstr "done")])]))).1.tasks "t1"
      = some ⟨.jstr "t1", .jstr "shopper", .jstr "success", .jstr "T",
              .jarr [.jstr "searching"], .jobj [("message", .jstr "done")], .jobj []⟩ :=
  start_logs_complete_record "T" "t1" "shopper" "success" [JVal.jstr "searching"]
    (.jobj [("message", .jstr "done")]) emptyDash (by decide) (by decide)

/-- A store state holding one task "t1" that already has a log line and a
terminal status, with its card in the grid. -/
def dupStartState : DashState :=
  ⟨[("t1", ⟨.jstr "t1", .jstr "shopper", .jstr "success", .jstr "T0",
            .jarr [.jstr "a"], .jnull, .jobj []⟩)], ["t1"], .jnull⟩

/-- C2 counterexample: re-applying a Start event for a known identifier does
NOT leave the existing record's status, logs and created_at unchanged — the
handler overwrites the record wholesale, resetting status to running, logs
to empty and created_at to the current clock. -/
theorem start_reapplication_resets_record :
    lookupTask dupStartState.tasks "t1"
        = some ⟨.jstr "t1", .jstr "shopper", .jstr "success", .jstr "T0",
                .jarr [.jstr "a"], .jnull, .jobj []⟩
    ∧ lookupTask (handleWsMessage "T1" dupStartState
          (mkStart "t1" "shopper")).state.tasks "t1"
        = some (startRec "t1" "shopper" "T1")
    ∧ startRec "t1" "shopper" "T1"
        ≠ ⟨.jstr "t1", .jstr "shopper", .jstr "success", .jstr "T0",
           .jarr [.jstr "a"], .jnull, .jobj []⟩ := by
  decide

/-- C2 amended: applying the same Start event twice with the same clock
reading yields the same task mapping as applying it once — but only because
the handler overwrites unconditionally: for a known identifier the record is
replaced with a fresh one (status running, empty logs, created_at now,
empty payload), so status and logs are reset rather than preserved. -/
theorem start_overwrite_idempotent (now id pstr : String) (st : DashState) :
    (handleWsMessage now
        (handleWsMessage now st (mkStart id pstr)).state (mkStart id pstr)).state.tasks
      = (handleWsMessage now st (mkStart id pstr)).state.tasks
    ∧ lookupTask (handleWsMessage now st (mkStart id pstr)).state.tasks id
      = some (startRec id pstr now) := by
  rw [hwm_start, hwm_start]
  exact ⟨setTask_idem .., lookupTask_setTask_self ..⟩

/-- A store state holding one task "t1" in terminal status success with a
result already set, with its card in the grid. -/
def terminalState : DashState :=
  ⟨[("t1", ⟨.jstr "t1", .jstr "shopper", .jstr "success", .jstr "T0", .jarr [],
            .jobj [("message", .jstr "done")], .jobj []⟩)], ["t1"], .jnull⟩

/-- C3 counterexample: a Complete event arriving for a record already in
terminal status success is applied, not ignored — status and result are
overwritten, so the record changes. -/
theorem complete_overwrites_terminal_record :
    (lookupTask terminalState.tasks "t1").map TaskRec.status = some (.jstr "success")
    ∧ lookupTask (handleWsMessage "T" terminalState
          (mkComplete "t1" "failed" (.jstr "oops"))).state.tasks "t1"
        = some ⟨.jstr "t1", .jstr "shopper", .jstr "failed", .jstr "T0", .jarr [],
                .jstr "oops", .jobj []⟩
    ∧ lookupTask (handleWsMessage "T" terminalState
          (mkComplete "t1" "failed" (.jstr "oops"))).state.tasks "t1"
        ≠ lookupTask terminalState.tasks "t1" := by
  decide

/-- C3 amended: `updateTaskCard` has no terminal-state guard — for every
known record whose card is rendered, a subsequent Complete event overwrites
status and result unconditionally, even when the record is already in a
terminal status. -/
theorem complete_always_overwrites (now id sstr : String) (res : JVal)
    (st : DashState) (r : TaskRec)
    (hknown : lookupTask st.tasks id = some r)
    (hterm : r.status = .jstr "success" ∨ r.status = .jstr "failed")
    (hcard : st.cards.contains id = true)
    (hres : res ≠ JVal.jundefined) :
    lookupTask (handleWsMessage now st (mkComplete id sstr res)).state.tasks id
      = some ⟨r.id, r.persona, .jstr sstr, r.created_at, r.logs, res, r.payload⟩ := by
  rw [hwm_complete now id sstr res st r hknown hcard hres]
  exact lookupTask_setTask_self ..

/-- C3 amended witness: the terminal record of `terminalState` is
overwritten by a later Complete carrying a different status and result. -/
theorem complete_always_overwrites_witness :
    lookupTask (handleWsMessage "T" terminalState
        (mkComplete "t1" "running" (.jstr "x"))).state.tasks "t1"
      = some ⟨.jstr "t1", .jstr "shopper", .jstr "running", .jstr "T0", .jarr [],
              .jstr "x", .jobj []⟩ :=
  complete_always_overwrites "T" "t1" "running" (.jstr "x") terminalState
    ⟨.jstr "t1", .jstr "shopper", .jstr "success", .jstr "T0", .jarr [],
     .jobj [("message", .jstr "done")], .jobj []⟩
    (by decide) (Or.inl rfl) (by decide) (by decide)

/-- C4: a Log or Complete event whose identifier is not in the store
triggers exactly one snapshot reload and changes nothing else — the state is
returned untouched and the event's fields are discarded. -/
theorem unknown_event_triggers_single_reload (now : String) (st : DashState) (p : JVal)
    (htype : fieldOr p "type" = .jstr "log" ∨ fieldOr p "type" = .jstr "complete")
    (hunknown : lookupTask st.tasks (jToStr (fieldOr p "task_id")) = none) :
    handleWsMessage now st p = ⟨st, 1, false⟩ := by
  have hne : ¬(p = JVal.jnull ∨ p = JVal.jundefined) := by
    rintro (rfl | rfl) <;> simp [fieldOr] at htype
  simp only [handleWsMessage, if_neg hne]
  rcases htype with h | h <;>
    simp only [h, jEq, afterStart, String.reduceBEq, Bool.false_eq_true, if_false,
               Bool.not_false, Bool.and_true, hunknown, Option.isNone_none, if_true,
               eq_self_iff_true]

/-- C4 witness: the spec scenario — a Log for unknown "t9" on the empty
store triggers one reload and creates nothing. -/
theorem unknown_event_triggers_single_reload_witness :
    handleWsMessage "T" emptyDash (mkLog "t9" (.jstr "x")) = ⟨emptyDash, 1, false⟩ :=
  unknown_event_triggers_single_reload "T" emptyDash (mkLog "t9" (.jstr "x"))
    (Or.inl rfl) (by decide)

/-- C5 counterexample: a Start frame arriving while the initial snapshot
fetch is still in flight is applied to the not-yet-initialized store at
once, and when the snapshot then lands (here: zero tasks) the record it
created is discarded — the event was neither buffered nor replayed. -/
theorem pre_snapshot_event_applied_then_dropped :
    (stepSys initSys (.ws (.json (mkStart "t1" "shopper")) "T")).dash.tasks
        = [("t1", startRec "t1" "shopper" "T")]
    ∧ (runTrace initSys [.ws (.json (mkStart "t1" "shopper")) "T",
          .fetchReturn (.ok (.jarr []))]).dash.tasks = [] := by
  decide

/-- C5 amended: there is no buffering — a push event arriving before the
snapshot completes is applied to the store immediately, and the completed
snapshot then rebuilds the mapping from the fetched data alone, so the task
mapping after the snapshot is the same as if the event had never been
applied. -/
theorem no_buffering_snapshot_wins (now id pstr : String) (st : DashState)
    (data : JVal) :
    lookupTask (onWsMessage now st (.json (mkStart id pstr))).state.tasks id
        = some (startRec id pstr now)
    ∧ (fetchTasksComplete (onWsMessage now st (.json (mkStart id pstr))).state
          (.ok data)).state.tasks
        = (fetchTasksComplete st (.ok data)).state.tasks := by
  refine ⟨?_, fetch_ok_tasks_indep ..⟩
  simp only [onWsMessage, hwm_start]
  exact lookupTask_setTask_self ..

/-- C6 counterexample: a frame that parses as JSON but matches none of the
three tagged shapes (type "ping") is not merely discarded — because its
task_id is unknown it falls into the missed-start path and triggers a
snapshot reload. -/
theorem unrecognized_json_frame_triggers_reload :
    (onWsMessage "T" emptyDash (.json (.jobj [("type", .jstr "ping"),
        ("task_id", .jstr "t9")]))).reloads = 1 := by
  decide

/-- C6 amended: a frame that fails JSON parsing is dropped with only a
console diagnostic — no store change, no reload, connection open.  A frame
that parses as JSON but is not one of the three tagged shapes also leaves
the store unchanged and the connection open, but it triggers one snapshot
reload whenever its task_id is not in the store (and none when it is). -/
theorem malformed_frame_handling (now : String) (st : DashState) (v : JVal)
    (hnn : v ≠ JVal.jnull) (hnu : v ≠ JVal.jundefined)
    (h1 : fieldOr v "type" ≠ .jstr "start")
    (h2 : fieldOr v "type" ≠ .jstr "log")
    (h3 : fieldOr v "type" ≠ .jstr "complete") :
    onWsMessage now st .nonJson = ⟨st, 0, true, true⟩
    ∧ (onWsMessage now st (.json v)).state = st
    ∧ (onWsMessage now st (.json v)).connOpen = true
    ∧ (onWsMessage now st (.json v)).reloads
        = (if (lookupTask st.tasks (jToStr (fieldOr v "task_id"))).isSome
           then 0 else 1) := by
  have hne : ¬(v = JVal.jnull ∨ v = JVal.jundefined) := by
    rintro (rfl | rfl) <;> simp_all
  have e1 := jEq_jstr_of_ne h1
  have e2 := jEq_jstr_of_ne h2
  have e3 := jEq_jstr_of_ne h3
  refine ⟨rfl, ?_, rfl, ?_⟩ <;>
  · simp only [onWsMessage, handleWsMessage, if_neg hne, e1, e2, e3, afterStart,
               Bool.false_eq_true, if_false, Bool.not_false, Bool.and_true]
    rcases hl : lookupTask st.tasks (jToStr (fieldOr v "task_id")) with _ | r <;>
      simp [hl]

/-- C6 amended witness: a JSON frame of type "other" with no task_id on the
empty store — store unchanged, connection open, one reload (its coerced
task_id "undefined" is unknown). -/
theorem malformed_frame_handling_witness :
    onWsMessage "T" emptyDash .nonJson = ⟨emptyDash, 0, true, true⟩
    ∧ (onWsMessage "T" emptyDash (.json (.jobj [("type", .jstr "other")]))).state
        = emptyDash
    ∧ (onWsMessage "T" emptyDash (.json (.jobj [("type", .jstr "other")]))).connOpen
        = true
    ∧ (onWsMessage "T" emptyDash (.json (.jobj [("type", .jstr "other")]))).reloads
        = (if (lookupTask emptyDash.tasks
              (jToStr (fieldOr (.jobj [("type", .jstr "other")]) "task_id"))).isSome
           then 0 else 1) :=
  malformed_frame_handling "T" emptyDash (.jobj [("type", .jstr "other")])
    (by decide) (by decide) (by decide) (by decide) (by decide)

/-- A store state with one known task, used for the snapshot-failure
claims. -/
def snapState : DashState := ⟨[("t1", startRec "t1" "shopper" "T0")], ["t1"], .jnull⟩

/-- C7 counterexample: a snapshot response whose body parses as JSON but is
not an array (here an empty object) makes the load fail — its failure is
caught and logged — yet the store is NOT left as it was: the mapping was
cleared before the failure and stays empty. -/
theorem nonarray_snapshot_clears_store :
    (fetchTasksComplete snapState (.ok (.jobj []))).errLogged = true
    ∧ (fetchTasksComplete snapState (.ok (.jobj []))).state.tasks = []
    ∧ snapState.tasks ≠ [] := by
  decide

/-- C7 amended: on a network error or a JSON-parse failure the store is
left exactly as it was and the failure is logged to the console; but the
load is not atomic in general — a body that parses as JSON yet is neither
an array nor the empty string leaves the mapping cleared, i.e. empty, with
the failure logged to the console exactly when the body fails the
`length === 0` check: a body passing it, such as an object whose `length`
property equals 0, empties the store silently (the empty state is rendered
and nothing is logged). -/
theorem snapshot_failure_atomicity (st : DashState) (data : JVal)
    (hna : ∀ xs, data ≠ JVal.jarr xs) (hns : data ≠ JVal.jstr "") :
    fetchTasksComplete st .netErr = ⟨st, true⟩
    ∧ fetchTasksComplete st .parseErr = ⟨st, true⟩
    ∧ (fetchTasksComplete st (.ok data)).state.tasks = []
    ∧ (fetchTasksComplete st (.ok data)).errLogged = !(lenZero data) := by
  refine ⟨rfl, rfl, ?_, ?_⟩ <;>
  · by_cases hz : lenZero data
    · simp [fetchTasksComplete, hz]
    · rw [Bool.not_eq_true] at hz
      cases data with
      | jarr xs => exact absurd rfl (hna xs)
      | jstr s => simp [fetchTasksComplete, hz]
      | jundefined => simp [fetchTasksComplete, hz]
      | jnull => simp [fetchTasksComplete, hz]
      | jbool b => simp [fetchTasksComplete, hz]
      | jnum n => simp [fetchTasksComplete, hz]
      | jobj fs => simp [fetchTasksComplete, hz]

/-- C7 amended witness: the amended statement at `snapState`, both for an
object body failing the length check (store cleared, error logged) and for
an object body whose `length` property is 0 (store cleared silently). -/
theorem snapshot_failure_atomicity_witness :
    fetchTasksComplete snapState .netErr = ⟨snapState, true⟩
    ∧ (fetchTasksComplete snapState (.ok (.jobj [("detail", .jstr "err")]))).state.tasks
        = []
    ∧ (fetchTasksComplete snapState (.ok (.jobj [("detail", .jstr "err")]))).errLogged
        = !(lenZero (.jobj [("detail", .jstr "err")]))
    ∧ (fetchTasksComplete snapState (.ok (.jobj [("length", .jnum 0)]))).state.tasks
        = []
    ∧ (fetchTasksComplete snapState (.ok (.jobj [("length", .jnum 0)]))).errLogged
        = !(lenZero (.jobj [("length", .jnum 0)])) :=
  ⟨(snapshot_failure_atomicity snapState (.jobj [("detail", .jstr "err")])
      (fun _ h => JVal.noConfusion h) (by decide)).1,
   (snapshot_failure_atomicity snapState (.jobj [("detail", .jstr "err")])
      (fun _ h => JVal.noConfusion h) (by decide)).2.2.1,
   (snapshot_failure_atomicity snapState (.jobj [("detail", .jstr "err")])
      (fun _ h => JVal.noConfusion h) (by decide)).2.2.2,
   (snapshot_failure_atomicity snapState (.jobj [("length", .jnum 0)])
      (fun _ h => JVal.noConfusion h) (by decide)).2.2.1,
   (snapshot_failure_atomicity snapState (.jobj [("length", .jnum 0)])
      (fun _ h => JVal.noConfusion h) (by decide)).2.2.2⟩

/-- C8 counterexample: the fallback text used when the relevant payload
field is absent is persona-specific, not persona-neutral — an empty-payload
shopper and an empty-payload rider get different placeholder strings. -/
theorem summary_fallback_is_persona_specific :
    getTaskSummary ⟨.jstr "a", .jstr "shopper", .jstr "running", .jstr "T", .jarr [],
        .jnull, .jobj []⟩ = "Finding items"
    ∧ getTaskSummary ⟨.jstr "b", .jstr "rider", .jstr "running", .jstr "T", .jarr [],
        .jnull, .jobj []⟩ = "Ride to destination"
    ∧ ("Finding items" : String) ≠ "Ride to destination" := by
  decide

/-- C8 amended: `getTaskSummary` is a pure function of the record, selecting
by persona (shopper → payload.product, rider → payload.drop, patient →
payload.medicine, coordinator → payload.event_name, foodie →
payload.food_item); when the relevant field is absent (or falsy) it falls
back to a persona-specific default embedded in the persona template, and
only unknown personas get the neutral placeholder. -/
theorem summary_table_and_fallbacks (t : TaskRec) :
    (t.persona = .jstr "shopper" →
        getTaskSummary t = "Finding " ++
          jToStr (jOr (fieldOr (jOr t.payload (.jobj [])) "product") (.jstr "items")))
    ∧ (t.persona = .jstr "rider" →
        getTaskSummary t = "Ride to " ++
          jToStr (jOr (fieldOr (jOr t.payload (.jobj [])) "drop") (.jstr "destination")))
    ∧ (t.persona = .jstr "patient" →
        getTaskSummary t = "Meds: " ++
          jToStr (jOr (fieldOr (jOr t.payload (.jobj [])) "medicine")
            (.jstr "Prescription")))
    ∧ (t.persona = .jstr "coordinator" →
        getTaskSummary t = "Event: " ++
          jToStr (jOr (fieldOr (jOr t.payload (.jobj [])) "event_name") (.jstr "Party")))
    ∧ (t.persona = .jstr "foodie" →
        getTaskSummary t = "Order: " ++
          jToStr (jOr (fieldOr (jOr t.payload (.jobj [])) "food_item") (.jstr "Food")))
    ∧ (t.persona ≠ .jstr "shopper" → t.persona ≠ .jstr "rider" →
        t.persona ≠ .jstr "patient" → t.persona ≠ .jstr "coordinator" →
        t.persona ≠ .jstr "foodie" →
        getTaskSummary t = "Execution in progress...") := by
  refine ⟨fun h => ?_, fun h => ?_, fun h => ?_, fun h => ?_, fun h => ?_,
          fun h1 h2 h3 h4 h5 => ?_⟩
  · simp [getTaskSummary, h, jEq]
  · simp [getTaskSummary, h, jEq]
  · simp [getTaskSummary, h, jEq]
  · simp [getTaskSummary, h, jEq]
  · simp [getTaskSummary, h, jEq]
  · simp [getTaskSummary, jEq_jstr_of_ne h1, jEq_jstr_of_ne h2, jEq_jstr_of_ne h3,
          jEq_jstr_of_ne h4, jEq_jstr_of_ne h5]

/-- C8 amended witness: an empty-payload shopper record summarized through
the table. -/
theorem summary_table_and_fallbacks_witness :
    getTaskSummary ⟨.jstr "w", .jstr "shopper", .jstr "running", .jstr "T", .jarr [],
        .jnull, .jobj []⟩
      = "Finding " ++
          jToStr (jOr (fieldOr (jOr (JVal.jobj []) (.jobj [])) "product")
            (.jstr "items")) :=
  (summary_table_and_fallbacks
    ⟨.jstr "w", .jstr "shopper", .jstr "running", .jstr "T", .jarr [],
     .jnull, .jobj []⟩).1 rfl

/-- C9: every Start event creates a record whose payload is the empty object
and whose created_at is the local clock reading at application — whatever
payload or timestamp the event carried is discarded — and for each of the
five personas the summary of the created record is the fallback placeholder
of that persona. -/
theorem start_creates_minimal_record (now : String) (st : DashState) (p : JVal)
    (htype : fieldOr p "type" = .jstr "start") :
    lookupTask (handleWsMessage now st p).state.tasks (jToStr (fieldOr p "task_id"))
      = some ⟨fieldOr p "task_id", fieldOr p "persona", .jstr "running", .jstr now,
              .jarr [], .jnull, .jobj []⟩
    ∧ (fieldOr p "persona" = .jstr "shopper" →
        getTaskSummary ⟨fieldOr p "task_id", fieldOr p "persona", .jstr "running",
            .jstr now, .jarr [], .jnull, .jobj []⟩ = "Finding items")
    ∧ (fieldOr p "persona" = .jstr "rider" →
        getTaskSummary ⟨fieldOr p "task_id", fieldOr p "persona", .jstr "running",
            .jstr now, .jarr [], .jnull, .jobj []⟩ = "Ride to destination")
    ∧ (fieldOr p "persona" = .jstr "patient" →
        getTaskSummary ⟨fieldOr p "task_id", fieldOr p "persona", .jstr "running",
            .jstr now, .jarr [], .jnull, .jobj []⟩ = "Meds: Prescription")
    ∧ (fieldOr p "persona" = .jstr "coordinator" →
        getTaskSummary ⟨fieldOr p "task_id", fieldOr p "persona", .jstr "running",
            .jstr now, .jarr [], .jnull, .jobj []⟩ = "Event: Party")
    ∧ (fieldOr p "persona" = .jstr "foodie" →
        getTaskSummary ⟨fieldOr p "task_id", fieldOr p "persona", .jstr "running",
            .jstr now, .jarr [], .jnull, .jobj []⟩ = "Order: Food") := by
  have hne : ¬(p = JVal.jnull ∨ p = JVal.jundefined) := by
    rintro (rfl | rfl) <;> simp [fieldOr] at htype
  refine ⟨?_, fun h => by rw [h]; rfl, fun h => by rw [h]; rfl,
          fun h => by rw [h]; rfl, fun h => by rw [h]; rfl,
          fun h => by rw [h]; rfl⟩
  simp only [handleWsMessage, if_neg hne, htype, jEq, String.reduceBEq, if_true,
             eq_self_iff_true]
  split
  · exact lookupTask_setTask_self ..
  · simp only [afterStart, jEq, String.reduceBEq, Bool.not_true, Bool.and_false,
               Bool.false_eq_true, if_false]
    exact lookupTask_setTask_self ..

/-- C9 witness: a Start frame carrying an initial payload and a timestamp:
both are discarded, the record stores the empty payload and the local clock,
and the summary is the shopper fallback. -/
theorem start_creates_minimal_record_witness :
    lookupTask (handleWsMessage "NOW" emptyDash
        (.jobj [("type", .jstr "start"), ("task_id", .jstr "t1"),
                ("persona", .jstr "shopper"),
                ("payload", .jobj [("product", .jstr "laptop")]),
                ("timestamp", .jstr "T9")])).state.tasks
        (jToStr (fieldOr (.jobj [("type", .jstr "start"), ("task_id", .jstr "t1"),
                ("persona", .jstr "shopper"),
                ("payload", .jobj [("product", .jstr "laptop")]),
                ("timestamp", .jstr "T9")]) "task_id"))
      = some ⟨fieldOr (.jobj [("type", .jstr "start"), ("task_id", .jstr "t1"),
                ("persona", .jstr "shopper"),
                ("payload", .jobj [("product", .jstr "laptop")]),
                ("timestamp", .jstr "T9")]) "task_id",
              fieldOr (.jobj [("type", .jstr "start"), ("task_id", .jstr "t1"),
                ("persona", .jstr "shopper"),
                ("payload", .jobj [("product", .jstr "laptop")]),
                ("timestamp", .jstr "T9")]) "persona",
              .jstr "running", .jstr "NOW", .jarr [], .jnull, .jobj []⟩ :=
  (start_creates_minimal_record "NOW" emptyDash
    (.jobj [("type", .jstr "start"), ("task_id", .jstr "t1"),
            ("persona", .jstr "shopper"),
            ("payload", .jobj [("product", .jstr "laptop")]),
            ("timestamp", .jstr "T9")]) rfl).1

/-- A store state whose task "t1" came from a snapshot without a `logs`
field (`logs` is undefined), so `logs.push` throws. -/
def noLogsState : DashState :=
  ⟨[("t1", ⟨.jstr "t1", .jstr "shopper", .jstr "running", .jstr "T0", .jundefined,
            .jnull, .jobj []⟩)], ["t1"], .jnull⟩

/-- A store state whose task "t1" has an empty logs array and is currently
shown in the modal, so `appendLog` runs on a log event for it. -/
def activeModalState : DashState :=
  ⟨[("t1", ⟨.jstr "t1", .jstr "shopper", .jstr "running", .jstr "T0", .jarr [],
            .jnull, .jobj []⟩)], ["t1"], .jstr "t1"⟩

/-- C10: exceptions thrown while applying a successfully parsed event are
caught by the same catch block as JSON parse failures, the connection always
stays open, and mutations made before the throw are retained: a Log event
for a known record with no logs array throws with the state unchanged, while
a Log event with a non-string message for a task shown in the modal throws
only after the push, leaving the appended message in the store — apply is
not atomic on such an error. -/
theorem apply_errors_caught_mutations_retained :
    (∀ (now : String) (st : DashState) (f : Frame),
        (onWsMessage now st f).connOpen = true)
    ∧ (onWsMessage "T" noLogsState (.json (mkLog "t1" (.jstr "x")))).errCaught = true
    ∧ (onWsMessage "T" noLogsState (.json (mkLog "t1" (.jstr "x")))).state = noLogsState
    ∧ (onWsMessage "T" activeModalState (.json (mkLog "t1" (.jnum 5)))).errCaught = true
    ∧ (onWsMessage "T" activeModalState (.json (mkLog "t1" (.jnum 5)))).state.tasks
        ≠ activeModalState.tasks := by
  refine ⟨?_, by decide, by decide, by decide, by decide⟩
  intro now st f
  cases f <;> rfl

end Devrun
